import Mathlib

/-!
# Verification of `src/server.js` (personal-trainer site backend)

A shallow embedding of the Express handlers in `src/server.js` as pure Lean
functions.  Request bodies are modelled as association lists of JavaScript
values, the Firestore documents as explicit state, JWT signing as a keyed
tagging function, and bcrypt as an injective hash model (bcrypt's observable
contract: `compare p (hashSync q) = (p = q)`).  Time is passed explicitly:
seconds since epoch for the JWT clock, an ISO string for stored timestamps.
-/

namespace Server

/-- JavaScript numbers, restricted to the integral values and `NaN` that the
handlers can actually produce from the claim-relevant inputs (no route in
`server.js` computes a fractional number from an integral one). -/
inductive JSNum where
  | nan : JSNum
  | int : Int → JSNum
deriving DecidableEq, Repr

/-- JavaScript values as they occur in `req.body` / `req.query` fields:
`undefined` (absent key), `null`, strings, numbers, booleans. -/
inductive JSVal where
  | undefined : JSVal
  | null : JSVal
  | str : String → JSVal
  | num : JSNum → JSVal
  | bool : Bool → JSVal
deriving DecidableEq, Repr

/-- JavaScript truthiness: `undefined`, `null`, `""`, `0`, `NaN`, `false`
are falsy, everything else truthy. -/
def JSVal.truthy : JSVal → Bool
  | .undefined => false
  | .null => false
  | .str s => !(s = "")
  | .num .nan => false
  | .num (.int i) => !(i = 0)
  | .bool b => b

/-- `String(v)` on the modelled values. -/
def JSVal.toStr : JSVal → String
  | .undefined => "undefined"
  | .null => "null"
  | .str s => s
  | .num .nan => "NaN"
  | .num (.int i) => toString i
  | .bool b => if b then "true" else "false"

/-- `s.trim()`: drop leading and trailing whitespace. -/
def jsTrim (s : String) : String :=
  ⟨((s.data.dropWhile Char.isWhitespace).reverse.dropWhile Char.isWhitespace).reverse⟩

/-- Decimal value of a digit string. -/
def charsToNat (l : List Char) : Nat :=
  l.foldl (fun n c => 10 * n + (c.toNat - 48)) 0

/-- `Number(s)` on a string, for strings made of an optional sign and
decimal digits (after trimming); every other string maps to `NaN`.
`Number("")` and `Number` of pure whitespace are `0`. -/
def jsStringToNumber (s : String) : JSNum :=
  match (jsTrim s).data with
  | [] => .int 0
  | '-' :: rest =>
    if rest ≠ [] ∧ rest.all Char.isDigit then .int (-(charsToNat rest : Int)) else .nan
  | '+' :: rest =>
    if rest ≠ [] ∧ rest.all Char.isDigit then .int (charsToNat rest) else .nan
  | l => if l.all Char.isDigit then .int (charsToNat l) else .nan

/-- `Number(v)` coercion. -/
def JSVal.toNumber : JSVal → JSNum
  | .undefined => .nan
  | .null => .int 0
  | .str s => jsStringToNumber s
  | .num n => n
  | .bool b => if b then .int 1 else .int 0

/-- `String(v || "").trim()`, the idiom used on every body field in
`server.js` (falsy values collapse to `""` before `String`). -/
def strOrEmptyTrim (v : JSVal) : String :=
  jsTrim (if v.truthy then v.toStr else "")

/-- `String(v || "")` without the trim (used for the login password). -/
def strOrEmpty (v : JSVal) : String :=
  if v.truthy then v.toStr else ""

/-- A JSON object as sent in a request body or stored in a Firestore
document: an association list from keys to values (first binding wins). -/
abbrev Doc := List (String × JSVal)

/-- Reading a key from an object: a missing key is `undefined`. -/
def Doc.get (d : Doc) (k : String) : JSVal :=
  match d.find? (fun p => p.1 = k) with
  | some p => p.2
  | none => .undefined

/-- Key lookup as an `Option`, to distinguish an absent key from a stored
`undefined` (Firestore documents never store `undefined`). -/
def Doc.lookup (d : Doc) (k : String) : Option JSVal :=
  (d.find? (fun p => p.1 = k)).map (·.2)

/-- Firestore `ref.set(payload, { merge: true })`: keys of `payload`
override, every other key of the stored document persists. -/
def Doc.setMerge (stored payload : Doc) : Doc :=
  payload ++ stored.filter (fun p => !(payload.map (·.1)).contains p.1)

/-! ## Environment (configuration source) -/

/-- The environment variables the claims touch.  `none` models an unset
variable; `process.env.X` of an unset variable is `undefined`, and
`requireEnv` treats the empty string like an unset one (it tests `!v`). -/
structure Env where
  jwtSecret : Option String
  adminUsername : Option String
  adminPassword : Option String
deriving DecidableEq, Repr

/-- `requireEnv(name)`: throws (here: `none`) when the variable is unset or
falsy (empty string). -/
def requireEnv (v : Option String) : Option String :=
  match v with
  | none => none
  | some s => if s = "" then none else some s

/-- `ADMIN_USERNAME = (process.env.ADMIN_USERNAME || "").trim()` (line 169). -/
def Env.adminUsernameVal (env : Env) : String :=
  jsTrim (env.adminUsername.getD "")

/-- `ADMIN_PASSWORD = process.env.ADMIN_PASSWORD || ""` (line 170). -/
def Env.adminPasswordVal (env : Env) : String :=
  env.adminPassword.getD ""

/-- Model of `bcrypt.hashSync(p, 10)`: an injective tag.  The only
observable property the code relies on is `bcrypt.compare q (hashSync p)`
succeeding exactly when `q = p`. -/
def bcryptHash (p : String) : String := "bcrypt$2a$10$" ++ p

/-- Model of `bcrypt.compare(password, hash)`. -/
def bcryptCompare (password hash : String) : Bool :=
  hash = bcryptHash password

/-- `ADMIN_PASSWORD_HASH = ADMIN_PASSWORD ? bcrypt.hashSync(...) : null`
(lines 174-176). -/
def Env.adminPasswordHash (env : Env) : Option String :=
  if env.adminPasswordVal = "" then none else some (bcryptHash env.adminPasswordVal)

/-! ## Session tokens (JWT model) -/

/-- The claims carried by a signed token: the payload `{role, username}`
passed to `jwt.sign`, plus the `iat`/`exp` fields `jsonwebtoken` adds
(`expiresIn: "7d"` makes `exp = iat + 604800` seconds). -/
structure Claims where
  role : String
  username : String
  iat : Nat
  exp : Nat
deriving DecidableEq, Repr

/-- Model of the HMAC over the serialized claims: keyed, collision-free by
construction.  A verifier holding the secret recomputes it and compares. -/
def jwtMac (secret : String) (c : Claims) : String :=
  secret ++ "." ++ c.role ++ "." ++ c.username ++ "." ++ toString c.iat ++ "." ++ toString c.exp

/-- A bearer token: claims plus signature. -/
structure Token where
  claims : Claims
  sig : String
deriving DecidableEq, Repr

/-- Seconds in the `"7d"` validity window. -/
def sevenDays : Nat := 7 * 24 * 3600

/-- `signToken(payload)` (lines 20-23): requires `JWT_SECRET`, signs the
payload with `exp` seven days out.  `none` models the thrown
`Missing env` error. -/
def signToken (env : Env) (role username : String) (nowSec : Nat) : Option Token :=
  match requireEnv env.jwtSecret with
  | none => none
  | some secret =>
    let c : Claims := { role := role, username := username, iat := nowSec, exp := nowSec + sevenDays }
    some { claims := c, sig := jwtMac secret c }

/-- `jwt.verify(token, secret)` at clock `nowSec`: succeeds iff the
signature matches and the token is unexpired (`jsonwebtoken` rejects once
`now ≥ exp`). -/
def jwtVerify (t : Token) (secret : String) (nowSec : Nat) : Option Claims :=
  if t.sig = jwtMac secret t.claims ∧ nowSec < t.claims.exp then some t.claims else none

/-- The `Authorization` header as the middleware sees it: absent, present
but not of `Bearer <token>` shape, or a bearer token. -/
inductive AuthHeader where
  | missing : AuthHeader
  | notBearer : String → AuthHeader
  | bearer : Token → AuthHeader
deriving DecidableEq, Repr

/-- Lines 26-27: extract the token from the header, `null` when the header
is absent or lacks the `Bearer ` prefix. -/
def extractToken : AuthHeader → Option Token
  | .missing => none
  | .notBearer _ => none
  | .bearer t => some t

/-- A normalized schedule item as stored by `PUT /api/admin/schedule`. -/
structure SchedItem where
  day : String
  time : String
  location : String
deriving DecidableEq, Repr

/-- The stored `schedule` singleton document.  `PUT /api/admin/schedule`
always writes both of its fields, so the merge write never leaves a stale
field in them. -/
structure Sched where
  items : List SchedItem
  updatedAt : Option String
deriving DecidableEq, Repr

/-- HTTP response bodies produced by the handlers under study.  A listed
inquiry is the stored data annotated with its store-assigned id. -/
inductive Body where
  | err : String → Body
  | okTrue : Body
  | token : Token → Body
  | items : List (String × Doc) → Body
  | doc : Doc → Body
  | sched : Sched → Body
deriving DecidableEq, Repr

/-- An HTTP response: status code and JSON body. -/
structure Response where
  status : Nat
  body : Body
deriving DecidableEq, Repr

/-- `authMiddleware` (lines 25-37).  `Except.error` is the early `401`;
`Except.ok` passes the verified claims to the handler.  Both a failing
`requireEnv("JWT_SECRET")` and a failing `jwt.verify` land in the same
`catch`, producing the same `401 {error: "Invalid token"}`. -/
def authMiddleware (env : Env) (nowSec : Nat) (hdr : AuthHeader) : Except Response Claims :=
  match extractToken hdr with
  | none => .error ⟨401, .err "Missing token"⟩
  | some t =>
    match requireEnv env.jwtSecret with
    | none => .error ⟨401, .err "Invalid token"⟩
    | some secret =>
      match jwtVerify t secret nowSec with
      | none => .error ⟨401, .err "Invalid token"⟩
      | some c => .ok c

/-! ## Login (`POST /api/auth/login`, lines 178-195) -/

/-- Outcome of the login route.  `thrown` is the case where `signToken`
throws (missing `JWT_SECRET`) after the credential check passed; the
route has no catch for it. -/
inductive LoginResult where
  | thrown : LoginResult
  | resp : Response → LoginResult
deriving DecidableEq, Repr

/-- The token of a successful login, when there is one. -/
def LoginResult.tokenOf : LoginResult → Option Token
  | .resp ⟨_, .token t⟩ => some t
  | _ => none

/-- The response of a login, when it did not throw. -/
def LoginResult.responseOf : LoginResult → Option Response
  | .resp r => some r
  | .thrown => none

def login (env : Env) (nowSec : Nat) (body : Doc) : LoginResult :=
  if env.adminUsernameVal = "" ∨ env.adminPasswordHash = none then
    .resp ⟨500, .err "Admin env not configured"⟩
  else if strOrEmptyTrim (body.get "username") ≠ env.adminUsernameVal then
    .resp ⟨401, .err "Invalid credentials"⟩
  else if ¬ bcryptCompare (strOrEmpty (body.get "password"))
      (env.adminPasswordHash.getD "") then
    .resp ⟨401, .err "Invalid credentials"⟩
  else
    match signToken env "admin" (strOrEmptyTrim (body.get "username")) nowSec with
    | none => .thrown
    | some t => .resp ⟨200, .token t⟩

/-! ## Inquiry submission (`POST /api/public/inquiry`, lines 138-166) -/

/-- Observable effects of the inquiry route, in program order.  The
boolean on an attempt records whether the simulated transport failed;
either way the `try {...} catch (e) {}` swallows the outcome. -/
inductive Ev where
  | persist : Doc → Ev
  | emailAttempt : Bool → Ev
  | telegramAttempt : Bool → Ev
deriving DecidableEq, Repr

/-- The inquiry route.  `newId` is the store-assigned id of
`inquiriesCol.add`; `emailFails` / `telegramFails` drive the simulated
transport outcomes.  Returns the response, the updated inquiries
collection, and the effect trace. -/
def postInquiry (body : Doc) (nowIso : String) (newId : String)
    (emailFails telegramFails : Bool) (inqs : List (String × Doc)) :
    Response × List (String × Doc) × List Ev :=
  let name := strOrEmptyTrim (body.get "name")
  let email := strOrEmptyTrim (body.get "email")
  let phone := strOrEmptyTrim (body.get "phone")
  let message := strOrEmptyTrim (body.get "message")
  if name = "" ∨ email = "" ∨ message = "" then
    (⟨400, .err "name, email, message are required"⟩, inqs, [])
  else
    let doc : Doc := [("name", .str name), ("email", .str email),
      ("phone", .str phone), ("message", .str message), ("createdAt", .str nowIso)]
    (⟨200, .okTrue⟩, inqs ++ [(newId, doc)],
      [.persist doc, .emailAttempt emailFails, .telegramAttempt telegramFails])

/-! ## Admin profile update (`PUT /api/admin/profile`, lines 203-218) -/

/-- The `payload` object of lines 204-212: every one of the six fields is
always present (an omitted string field collapses to `""`, an omitted
`age` to `Number(undefined) = NaN`), plus the `updatedAt` stamp. -/
def putProfilePayload (body : Doc) (nowIso : String) : Doc :=
  [("name", .str (strOrEmptyTrim (body.get "name"))),
   ("bio", .str (strOrEmptyTrim (body.get "bio"))),
   ("place", .str (strOrEmptyTrim (body.get "place"))),
   ("phone", .str (strOrEmptyTrim (body.get "phone"))),
   ("photoUrl", .str (strOrEmptyTrim (body.get "photoUrl"))),
   ("age", if body.get "age" = .null ∨ body.get "age" = .str "" then .null
           else .num (body.get "age").toNumber),
   ("updatedAt", .str nowIso)]

/-- The profile update route body (after the auth middleware).  `stored`
is the current `site/profile` document, `none` when it does not exist. -/
def putProfile (body : Doc) (nowIso : String) (stored : Option Doc) :
    Response × Option Doc :=
  let payload := putProfilePayload body nowIso
  if strOrEmptyTrim (body.get "name") = "" then
    (⟨400, .err "name is required"⟩, stored)
  else
    (⟨200, .okTrue⟩, some (Doc.setMerge (stored.getD []) payload))

/-! ## Admin schedule update (`PUT /api/admin/schedule`, lines 225-237) -/

/-- The `clean` list of lines 227-233: trim `day`/`time`/`location` of each
item, keep an item iff both `day` and `time` are non-empty (JS string
truthiness). -/
def cleanScheduleItems (items : List Doc) : List SchedItem :=
  (items.map (fun x => SchedItem.mk (strOrEmptyTrim (x.get "day"))
      (strOrEmptyTrim (x.get "time")) (strOrEmptyTrim (x.get "location")))).filter
    (fun x => !(x.day = "") && !(x.time = ""))

/-- The schedule update route body.  `itemsInput = none` models a request
whose `items` is not an array (`Array.isArray` fails → `[]`).  The merge
write supplies both fields of the schedule document, so the previous
value never shows through. -/
def putSchedule (itemsInput : Option (List Doc)) (nowIso : String)
    (stored : Option Sched) : Response × Option Sched :=
  let items := itemsInput.getD []
  let clean := cleanScheduleItems items
  let _ := stored
  (⟨200, .okTrue⟩, some ⟨clean, some nowIso⟩)

/-! ## Admin inquiry listing (`GET /api/admin/inquiries`, lines 239-244) -/

/-- `Math.min(Number(req.query.limit || 25), 100)` (line 240).  `none`
models an absent `limit` query parameter (`undefined`, falsy, so the
default `25` applies — as it also does for `limit=`, the empty string);
`Math.min` of `NaN` with anything is `NaN`. -/
def computedLimit (q : Option String) : JSNum :=
  let raw : JSVal := match q with
    | none => .undefined
    | some s => .str s
  let v : JSVal := if raw.truthy then raw else .num (.int 25)
  match v.toNumber with
  | .nan => .nan
  | .int n => .int (min n 100)

/-- The `createdAt` sort key of a stored inquiry document.  Every document
in the `inquiries` collection is written by `postInquiry`, which always
stores a string there. -/
def createdAtKey (d : Doc) : String :=
  match d.lookup "createdAt" with
  | some (.str s) => s
  | _ => ""

/-- Lexicographic order on character lists. -/
def charListLe : List Char → List Char → Bool
  | [], _ => true
  | _ :: _, [] => false
  | a :: as, b :: bs => if a < b then true else if a = b then charListLe as bs else false

/-- Lexicographic order on strings, the order Firestore applies to string
fields; on ISO-8601 timestamps it is chronological order. -/
def strLe (a b : String) : Bool := charListLe a.data b.data

/-- Descending `createdAt` order on stored inquiries. -/
def inqDescOrder (a b : String × Doc) : Prop :=
  strLe (createdAtKey b.2) (createdAtKey a.2) = true

instance : DecidableRel inqDescOrder := fun _ _ =>
  inferInstanceAs (Decidable (_ = true))

/-- `inquiriesCol.orderBy("createdAt", "desc")`: a stable sort descending
by the `createdAt` string. -/
def sortInquiriesDesc (inqs : List (String × Doc)) : List (String × Doc) :=
  List.insertionSort inqDescOrder inqs

/-- The inquiry listing route body.  `none` models the Firestore client
rejecting an out-of-range `limit` argument (`NaN` or negative) before any
query runs; the in-range path sorts descending, truncates, and annotates
each document with its store-assigned id. -/
def listInquiries (q : Option String) (inqs : List (String × Doc)) :
    Option Response :=
  match computedLimit q with
  | .nan => none
  | .int n =>
    if n < 0 then none
    else some ⟨200, .items ((sortInquiriesDesc inqs).take n.toNat)⟩

/-! ## The admin surface behind `authMiddleware` -/

/-- The five JWT-protected routes (lines 198-244). -/
inductive AdminEndpoint where
  | getProfile : AdminEndpoint
  | putProfile : AdminEndpoint
  | getSchedule : AdminEndpoint
  | putSchedule : AdminEndpoint
  | getInquiries : AdminEndpoint
deriving DecidableEq, Repr

/-- Persistent state: the two singleton documents and the inquiries
collection (store-assigned id paired with the document). -/
structure Store where
  profile : Option Doc
  schedule : Option Sched
  inquiries : List (String × Doc)
deriving DecidableEq, Repr

/-- One admin request: the `Authorization` header plus whichever inputs
the target route reads. -/
structure AdminRequest where
  hdr : AuthHeader
  body : Doc
  scheduleItems : Option (List Doc)
  limitParam : Option String
deriving DecidableEq, Repr

/-- Run one admin endpoint: `authMiddleware` first (its `401` leaves the
store untouched), then the route handler.  `none` only on the
inquiry-listing store rejection modelled in `listInquiries`. -/
def runAdminEndpoint (e : AdminEndpoint) (env : Env) (nowSec : Nat)
    (nowIso : String) (req : AdminRequest) (st : Store) :
    Option (Response × Store) :=
  match authMiddleware env nowSec req.hdr with
  | .error r => some (r, st)
  | .ok _claims =>
    match e with
    | .getProfile => some (⟨200, .doc (st.profile.getD [])⟩, st)
    | .putProfile =>
      let (r, p) := putProfile req.body nowIso st.profile
      some (r, { st with profile := p })
    | .getSchedule => some (⟨200, .sched (st.schedule.getD ⟨[], none⟩)⟩, st)
    | .putSchedule =>
      let (r, s) := putSchedule req.scheduleItems nowIso st.schedule
      some (r, { st with schedule := s })
    | .getInquiries =>
      (listInquiries req.limitParam st.inquiries).map (fun r => (r, st))

/-- The handler part of an admin route, after the middleware let the
request through. -/
def adminHandler (e : AdminEndpoint) (nowIso : String) (req : AdminRequest)
    (st : Store) : Option (Response × Store) :=
  match e with
  | .getProfile => some (⟨200, .doc (st.profile.getD [])⟩, st)
  | .putProfile =>
    let (r, p) := putProfile req.body nowIso st.profile
    some (r, { st with profile := p })
  | .getSchedule => some (⟨200, .sched (st.schedule.getD ⟨[], none⟩)⟩, st)
  | .putSchedule =>
    let (r, s) := putSchedule req.scheduleItems nowIso st.schedule
    some (r, { st with schedule := s })
  | .getInquiries =>
    (listInquiries req.limitParam st.inquiries).map (fun r => (r, st))

/-! ## Helper lemmas -/

theorem runAdminEndpoint_eq (e : AdminEndpoint) (env : Env) (nowSec : Nat)
    (nowIso : String) (req : AdminRequest) (st : Store) :
    runAdminEndpoint e env nowSec nowIso req st =
      match authMiddleware env nowSec req.hdr with
      | .error r => some (r, st)
      | .ok _ => adminHandler e nowIso req st := by
  unfold runAdminEndpoint adminHandler
  cases authMiddleware env nowSec req.hdr <;> rfl

theorem bcryptHash_injective : Function.Injective bcryptHash := by
  intro p q h
  have h2 : p.data = q.data := by
    have := congrArg String.data h
    simpa [bcryptHash] using this
  exact congrArg String.mk h2

theorem bcryptCompare_hash (p q : String) :
    bcryptCompare p (bcryptHash q) = true ↔ q = p := by
  unfold bcryptCompare
  constructor
  · intro h
    exact bcryptHash_injective (by simpa using h)
  · intro h
    simp [h]

/-- `find?` is unchanged by a filter that keeps every match of the
searched predicate. -/
theorem find?_filter_keeps (l : List (String × JSVal)) (k : String)
    (q : String × JSVal → Bool) (hq : ∀ p, p.1 = k → q p = true) :
    (l.filter q).find? (fun p => p.1 = k) = l.find? (fun p => p.1 = k) := by
  induction l with
  | nil => simp
  | cons hd tl ih =>
    by_cases hhd : hd.1 = k
    · rw [List.filter_cons, if_pos (hq hd hhd)]
      rw [List.find?_cons, List.find?_cons]
      simp [hhd, ih]
    · rcases hkeep : q hd with _ | _
      · rw [List.filter_cons, hkeep]
        simp only [Bool.false_eq_true, if_false]
        rw [ih, List.find?_cons]
        simp [hhd]
      · rw [List.filter_cons, hkeep]
        simp only [if_true]
        rw [List.find?_cons, List.find?_cons]
        simp [hhd, ih]

/-- Lookup through a merge write: the payload wins on its own keys, the
stored document persists elsewhere. -/
theorem Doc.lookup_setMerge (stored payload : Doc) (k : String) :
    (Doc.setMerge stored payload).lookup k =
      ((payload.lookup k).or (stored.lookup k)) := by
  unfold Doc.setMerge Doc.lookup
  rw [List.find?_append]
  cases hp : payload.find? (fun p => p.1 = k) with
  | some v => simp
  | none =>
    simp only [Option.map_none, Option.none_or]
    congr 1
    have hk : ∀ p ∈ payload, ¬(p.1 = k) := by
      intro p hp2
      have := List.find?_eq_none.mp hp p hp2
      simpa using this
    refine find?_filter_keeps stored k _ (fun p hpk => ?_)
    have hmem : p.1 ∉ payload.map (·.1) := by
      simp only [List.mem_map, not_exists]
      rintro q ⟨hq, hq2⟩
      exact hk q hq (hq2.trans hpk)
    simp [hmem]

/-- Any token `login` hands out: role `"admin"`, a seven-day window
starting at the login clock, and a signature the configured secret
verifies. -/
theorem login_token_shape (env : Env) (secret : String) (t0 : Nat)
    (body : Doc) (tok : Token)
    (hsec : requireEnv env.jwtSecret = some secret)
    (h : (login env t0 body).tokenOf = some tok) :
    tok.claims.role = "admin" ∧ tok.claims.iat = t0 ∧
      tok.claims.exp = t0 + sevenDays ∧ tok.sig = jwtMac secret tok.claims := by
  unfold login at h
  split at h
  · simp [LoginResult.tokenOf] at h
  · split at h
    · simp [LoginResult.tokenOf] at h
    · split at h
      · simp [LoginResult.tokenOf] at h
      · rw [signToken, hsec] at h
        simp only [LoginResult.tokenOf] at h
        cases h
        exact ⟨rfl, rfl, rfl, rfl⟩

/-- The middleware on a bearer token with the secret configured: the
outcome depends only on the signature check and the expiry check. -/
theorem authMiddleware_bearer (env : Env) (secret : String) (nowSec : Nat)
    (t : Token) (hsec : requireEnv env.jwtSecret = some secret) :
    authMiddleware env nowSec (.bearer t) =
      if t.sig = jwtMac secret t.claims ∧ nowSec < t.claims.exp
      then .ok t.claims else .error ⟨401, .err "Invalid token"⟩ := by
  simp only [authMiddleware, extractToken, hsec, jwtVerify]
  by_cases hc : t.sig = jwtMac secret t.claims ∧ nowSec < t.claims.exp
  · rw [if_pos hc, if_pos hc]
  · rw [if_neg hc, if_neg hc]

/-! ## Claim theorems -/

/-- C4: an inquiry whose `name`, `email`, or `message` is empty after
trimming yields a 400 and creates no store record; a submission with all
three non-empty persists exactly one record carrying the server-generated
creation timestamp. -/
theorem inquiry_validated_before_persistence (body : Doc)
    (nowIso newId : String) (ef tf : Bool) (inqs : List (String × Doc)) :
    (strOrEmptyTrim (body.get "name") = "" ∨ strOrEmptyTrim (body.get "email") = "" ∨
        strOrEmptyTrim (body.get "message") = "" →
      (postInquiry body nowIso newId ef tf inqs).1.status = 400 ∧
        (postInquiry body nowIso newId ef tf inqs).2.1 = inqs) ∧
    (strOrEmptyTrim (body.get "name") ≠ "" → strOrEmptyTrim (body.get "email") ≠ "" →
        strOrEmptyTrim (body.get "message") ≠ "" →
      ∃ d : Doc,
        (postInquiry body nowIso newId ef tf inqs).2.1 = inqs ++ [(newId, d)] ∧
        d.lookup "createdAt" = some (.str nowIso) ∧
        (postInquiry body nowIso newId ef tf inqs).1.status = 200) := by
  constructor
  · intro h
    simp [postInquiry, h]
  · intro h1 h2 h3
    refine ⟨[("name", .str (strOrEmptyTrim (body.get "name"))),
        ("email", .str (strOrEmptyTrim (body.get "email"))),
        ("phone", .str (strOrEmptyTrim (body.get "phone"))),
        ("message", .str (strOrEmptyTrim (body.get "message"))),
        ("createdAt", .str nowIso)], ?_, ?_, ?_⟩ <;>
      simp [postInquiry, h1, h2, h3, Doc.lookup]

theorem inquiry_validated_before_persistence_witness :
    ((postInquiry [("email", JSVal.str "e@x"), ("message", JSVal.str "hi")]
        "2024-01-01T00:00:00Z" "id0" false false []).1.status = 400 ∧
      (postInquiry [("email", JSVal.str "e@x"), ("message", JSVal.str "hi")]
        "2024-01-01T00:00:00Z" "id0" false false []).2.1 = []) ∧
    ∃ d : Doc,
      (postInquiry [("name", JSVal.str "n"), ("email", JSVal.str "e@x"),
          ("message", JSVal.str "hi")] "2024-01-01T00:00:00Z" "id0" false false
          []).2.1 = [] ++ [("id0", d)] ∧
      d.lookup "createdAt" = some (.str "2024-01-01T00:00:00Z") ∧
      (postInquiry [("name", JSVal.str "n"), ("email", JSVal.str "e@x"),
          ("message", JSVal.str "hi")] "2024-01-01T00:00:00Z" "id0" false false
          []).1.status = 200 :=
  ⟨(inquiry_validated_before_persistence _ _ _ _ _ _).1 (by decide),
   (inquiry_validated_before_persistence _ _ _ _ _ _).2 (by decide) (by decide)
     (by decide)⟩

/-- C5: a valid inquiry is persisted before the notification dispatches
are attempted (the effect trace is persist, then the email attempt, then
the chat attempt), a failing dispatch never changes the HTTP response
from the success case, and a failure of one dispatch does not prevent the
attempt of the other. -/
theorem inquiry_notifications_best_effort (body : Doc)
    (nowIso newId : String) (ef tf : Bool) (inqs : List (String × Doc))
    (hn : strOrEmptyTrim (body.get "name") ≠ "")
    (he : strOrEmptyTrim (body.get "email") ≠ "")
    (hm : strOrEmptyTrim (body.get "message") ≠ "") :
    ∃ d : Doc,
      (postInquiry body nowIso newId ef tf inqs).2.2 =
        [Ev.persist d, Ev.emailAttempt ef, Ev.telegramAttempt tf] ∧
      (postInquiry body nowIso newId ef tf inqs).1 =
        (postInquiry body nowIso newId false false inqs).1 ∧
      (postInquiry body nowIso newId ef tf inqs).1 = ⟨200, .okTrue⟩ ∧
      (postInquiry body nowIso newId ef tf inqs).2.1 =
        (postInquiry body nowIso newId false false inqs).2.1 := by
  refine ⟨[("name", .str (strOrEmptyTrim (body.get "name"))),
      ("email", .str (strOrEmptyTrim (body.get "email"))),
      ("phone", .str (strOrEmptyTrim (body.get "phone"))),
      ("message", .str (strOrEmptyTrim (body.get "message"))),
      ("createdAt", .str nowIso)], ?_, ?_, ?_, ?_⟩ <;>
    simp [postInquiry, hn, he, hm]

theorem inquiry_notifications_best_effort_witness :
    ∃ d : Doc,
      (postInquiry [("name", JSVal.str "n"), ("email", JSVal.str "e@x"),
          ("message", JSVal.str "hi")] "T0" "id0" true true []).2.2 =
        [Ev.persist d, Ev.emailAttempt true, Ev.telegramAttempt true] ∧
      (postInquiry [("name", JSVal.str "n"), ("email", JSVal.str "e@x"),
          ("message", JSVal.str "hi")] "T0" "id0" true true []).1 =
        (postInquiry [("name", JSVal.str "n"), ("email", JSVal.str "e@x"),
          ("message", JSVal.str "hi")] "T0" "id0" false false []).1 ∧
      (postInquiry [("name", JSVal.str "n"), ("email", JSVal.str "e@x"),
          ("message", JSVal.str "hi")] "T0" "id0" true true []).1 =
        ⟨200, .okTrue⟩ ∧
      (postInquiry [("name", JSVal.str "n"), ("email", JSVal.str "e@x"),
          ("message", JSVal.str "hi")] "T0" "id0" true true []).2.1 =
        (postInquiry [("name", JSVal.str "n"), ("email", JSVal.str "e@x"),
          ("message", JSVal.str "hi")] "T0" "id0" false false []).2.1 :=
  inquiry_notifications_best_effort _ _ _ _ _ _ (by decide) (by decide) (by decide)

/-- C6: a login with an unknown identity and a login with the correct
identity but a wrong password both answer 401 with the same generic
invalid-credentials body. -/
theorem login_no_enumeration_signal (env : Env) (n1 n2 : Nat) (b1 b2 : Doc)
    (hu : env.adminUsernameVal ≠ "") (hp : env.adminPasswordHash ≠ none)
    (h1 : strOrEmptyTrim (b1.get "username") ≠ env.adminUsernameVal)
    (h2 : strOrEmptyTrim (b2.get "username") = env.adminUsernameVal)
    (h3 : strOrEmpty (b2.get "password") ≠ env.adminPasswordVal) :
    login env n1 b1 = .resp ⟨401, .err "Invalid credentials"⟩ ∧
    login env n2 b2 = .resp ⟨401, .err "Invalid credentials"⟩ ∧
    login env n1 b1 = login env n2 b2 := by
  have hpw : env.adminPasswordVal ≠ "" := by
    intro h
    exact hp (by simp [Env.adminPasswordHash, h])
  have hhash : env.adminPasswordHash = some (bcryptHash env.adminPasswordVal) := by
    simp [Env.adminPasswordHash, hpw]
  have hcmp : bcryptCompare (strOrEmpty (b2.get "password"))
      (env.adminPasswordHash.getD "") = false := by
    rw [hhash]
    simp only [Option.getD_some]
    rcases hc : bcryptCompare (strOrEmpty (b2.get "password"))
        (bcryptHash env.adminPasswordVal) with _ | _
    · rfl
    · exact absurd ((bcryptCompare_hash _ _).mp hc).symm h3
  refine ⟨?_, ?_, ?_⟩
  · simp [login, hu, hp, h1]
  · simp [login, hu, hp, h2, hcmp]
  · simp [login, hu, hp, h1, h2, hcmp]

theorem login_no_enumeration_signal_witness :
    login ⟨some "s3cret", some "admin", some "pw"⟩ 5
        [("username", JSVal.str "nobody"), ("password", JSVal.str "pw")] =
      .resp ⟨401, .err "Invalid credentials"⟩ ∧
    login ⟨some "s3cret", some "admin", some "pw"⟩ 9
        [("username", JSVal.str "admin"), ("password", JSVal.str "wrong")] =
      .resp ⟨401, .err "Invalid credentials"⟩ ∧
    login ⟨some "s3cret", some "admin", some "pw"⟩ 5
        [("username", JSVal.str "nobody"), ("password", JSVal.str "pw")] =
      login ⟨some "s3cret", some "admin", some "pw"⟩ 9
        [("username", JSVal.str "admin"), ("password", JSVal.str "wrong")] :=
  login_no_enumeration_signal _ 5 9 _ _ (by decide) (by decide) (by decide)
    (by decide) (by decide)

/-- C9: the profile update coerces `age` to absent (`null`) exactly when
the input is `null` or the empty string, and otherwise stores the numeric
coercion of the input. -/
theorem profile_age_coercion (body : Doc) (nowIso : String) :
    ((body.get "age" = .null ∨ body.get "age" = .str "") →
      (putProfilePayload body nowIso).lookup "age" = some .null) ∧
    (body.get "age" ≠ .null → body.get "age" ≠ .str "" →
      (putProfilePayload body nowIso).lookup "age" =
        some (.num (body.get "age").toNumber)) := by
  constructor
  · intro h
    simp [putProfilePayload, Doc.lookup, h]
  · intro h1 h2
    simp [putProfilePayload, Doc.lookup, h1, h2]

theorem profile_age_coercion_witness :
    ((putProfilePayload [("name", JSVal.str "A"), ("age", JSVal.null)]
        "T0").lookup "age" = some .null) ∧
    ((putProfilePayload [("name", JSVal.str "A"), ("age", JSVal.str "31")]
        "T0").lookup "age" = some (.num (.int 31))) :=
  ⟨(profile_age_coercion _ _).1 (by decide),
   by
    have := (profile_age_coercion
      [("name", JSVal.str "A"), ("age", JSVal.str "31")] "T0").2
      (by decide) (by decide)
    simpa using this⟩

/-- C8: the schedule update retains an input item iff both its trimmed
`day` and `time` are non-empty (`location` may be empty), replaces the
stored `items` wholesale with the filtered, trimmed list in input order,
and stamps `updatedAt`; in particular the claim's two-item example
persists only the first item. -/
theorem schedule_replace_filtered (itemsInput : Option (List Doc))
    (nowIso : String) (stored stored2 : Option Sched) :
    ∃ s : Sched,
      (putSchedule itemsInput nowIso stored).2 = some s ∧
      (putSchedule itemsInput nowIso stored2).2 = some s ∧
      s.updatedAt = some nowIso ∧
      s.items.Sublist ((itemsInput.getD []).map (fun x =>
        SchedItem.mk (strOrEmptyTrim (x.get "day")) (strOrEmptyTrim (x.get "time"))
          (strOrEmptyTrim (x.get "location")))) ∧
      (∀ x ∈ (itemsInput.getD []).map (fun x =>
          SchedItem.mk (strOrEmptyTrim (x.get "day")) (strOrEmptyTrim (x.get "time"))
            (strOrEmptyTrim (x.get "location"))),
        (x ∈ s.items ↔ (x.day ≠ "" ∧ x.time ≠ ""))) ∧
      (putSchedule
          (some [[("day", .str "Mon"), ("time", .str "5pm"), ("location", .str "Gym")],
                 [("day", .str ""), ("time", .str "6pm"), ("location", .str "X")]])
          nowIso stored).2 =
        some ⟨[⟨"Mon", "5pm", "Gym"⟩], some nowIso⟩ := by
  refine ⟨⟨cleanScheduleItems (itemsInput.getD []), some nowIso⟩,
    rfl, rfl, rfl, ?_, ?_, ?_⟩
  · exact List.filter_sublist _
  · intro x hx
    simp only [cleanScheduleItems, List.mem_filter, hx, true_and]
    simp
  · rfl

theorem schedule_replace_filtered_witness :
    (putSchedule
        (some [[("day", .str "Mon"), ("time", .str "5pm"), ("location", .str "Gym")],
               [("day", .str ""), ("time", .str "6pm"), ("location", .str "X")]])
        "2024-01-02T00:00:00Z" none).2 =
      some ⟨[⟨"Mon", "5pm", "Gym"⟩], some "2024-01-02T00:00:00Z"⟩ ∧
    (⟨"Mon", "5pm", "Gym"⟩ : SchedItem) ∈
      [SchedItem.mk "Mon" "5pm" "Gym"] := by
  obtain ⟨s, h1, h2, h3, h4, h5, h6⟩ :=
    schedule_replace_filtered
      (some [[("day", .str "Mon"), ("time", .str "5pm"), ("location", .str "Gym")],
             [("day", .str ""), ("time", .str "6pm"), ("location", .str "X")]])
      "2024-01-02T00:00:00Z" none none
  refine ⟨h6, ?_⟩
  have hs : s = ⟨[⟨"Mon", "5pm", "Gym"⟩], some "2024-01-02T00:00:00Z"⟩ := by
    exact Option.some.inj (h1.symm.trans h6)
  have hmem := (h5 ⟨"Mon", "5pm", "Gym"⟩ (by decide)).mpr (by decide)
  rw [hs] at hmem
  exact hmem

/-- C10: the default of 25 applies only to an absent or empty `limit`
parameter; a supplied `"0"` computes to 0, a negative supplied limit
passes through the one-sided clamp unchanged, and a non-numeric supplied
limit computes to `NaN`. -/
theorem inquiries_limit_edge_cases :
    computedLimit none = .int 25 ∧
    computedLimit (some "") = .int 25 ∧
    computedLimit (some "0") = .int 0 ∧
    (∀ (s : String) (n : Int), jsStringToNumber s = .int n → n < 0 →
      computedLimit (some s) = .int n) ∧
    (∀ s : String, s ≠ "" → jsStringToNumber s = .nan →
      computedLimit (some s) = .nan) ∧
    computedLimit (some "-5") = .int (-5) ∧
    computedLimit (some "abc") = .nan := by
  refine ⟨by decide, by decide, by decide, ?_, ?_, by decide, by decide⟩
  · intro s n hs hn
    have hse : s ≠ "" := by
      intro h
      rw [h] at hs
      have : (0 : Int) = n := by
        have := hs
        simp [jsStringToNumber, jsTrim] at this
        exact this
      omega
    have hmin : n ⊓ 100 = n := by omega
    simp [computedLimit, JSVal.truthy, JSVal.toNumber, hse, hs, hmin]
  · intro s hse hs
    simp [computedLimit, JSVal.truthy, JSVal.toNumber, hse, hs]

theorem inquiries_limit_edge_cases_witness :
    computedLimit (some "-7") = .int (-7) ∧
    computedLimit (some "12xyz") = .nan :=
  ⟨inquiries_limit_edge_cases.2.2.2.1 "-7" (-7) (by decide) (by decide),
   inquiries_limit_edge_cases.2.2.2.2.1 "12xyz" (by decide) (by decide)⟩

theorem charListLe_total (a b : List Char) :
    charListLe a b = true ∨ charListLe b a = true := by
  induction a generalizing b with
  | nil => left; rfl
  | cons x xs ih =>
    cases b with
    | nil => right; rfl
    | cons y ys =>
      rcases lt_trichotomy x y with h | h | h
      · left; simp [charListLe, h]
      · subst h
        rcases ih ys with h2 | h2
        · left; simp [charListLe, h2]
        · right; simp [charListLe, h2]
      · right; simp [charListLe, h]

theorem charListLe_trans (a b c : List Char) (hab : charListLe a b = true)
    (hbc : charListLe b c = true) : charListLe a c = true := by
  induction a generalizing b c with
  | nil => rfl
  | cons x xs ih =>
    cases b with
    | nil => simp [charListLe] at hab
    | cons y ys =>
      cases c with
      | nil => simp [charListLe] at hbc
      | cons z zs =>
        by_cases hxy : x < y
        · by_cases hyz : y < z
          · simp [charListLe, lt_trans hxy hyz]
          · by_cases hyz2 : y = z
            · subst hyz2; simp [charListLe, hxy]
            · simp [charListLe, hyz, hyz2] at hbc
        · by_cases hxy2 : x = y
          · subst hxy2
            simp only [charListLe, if_neg hxy, if_pos rfl] at hab
            by_cases hyz : x < z
            · simp [charListLe, hyz]
            · by_cases hyz2 : x = z
              · subst hyz2
                simp only [charListLe, if_neg hxy, if_pos rfl] at hbc ⊢
                exact ih ys zs hab hbc
              · simp [charListLe, hyz, hyz2] at hbc
          · simp [charListLe, hxy, hxy2] at hab

theorem sortInquiriesDesc_pairwise (inqs : List (String × Doc)) :
    List.Pairwise inqDescOrder (sortInquiriesDesc inqs) := by
  haveI : IsTotal (String × Doc) inqDescOrder :=
    ⟨fun a b => charListLe_total (createdAtKey b.2).data (createdAtKey a.2).data⟩
  haveI : IsTrans (String × Doc) inqDescOrder :=
    ⟨fun a b c hab hbc =>
      charListLe_trans (createdAtKey c.2).data (createdAtKey b.2).data
        (createdAtKey a.2).data hbc hab⟩
  exact List.sorted_insertionSort inqDescOrder inqs

/-- C7: the list-inquiries limit is clamped to 100 (`limit=500` computes
to 100 and at most 100 items come back), defaults to 25 when no limit is
supplied, and the returned items are in descending creation-time order,
each being a stored `(id, document)` pair. -/
theorem inquiries_list_clamped (inqs : List (String × Doc)) :
    computedLimit (some "500") = .int 100 ∧
    computedLimit none = .int 25 ∧
    listInquiries (some "500") inqs =
      some ⟨200, .items ((sortInquiriesDesc inqs).take 100)⟩ ∧
    ((sortInquiriesDesc inqs).take 100).length ≤ 100 ∧
    List.Pairwise inqDescOrder ((sortInquiriesDesc inqs).take 100) ∧
    (∀ p ∈ (sortInquiriesDesc inqs).take 100, p ∈ inqs) ∧
    listInquiries none inqs =
      some ⟨200, .items ((sortInquiriesDesc inqs).take 25)⟩ ∧
    ((sortInquiriesDesc inqs).take 25).length ≤ 25 ∧
    List.Pairwise inqDescOrder ((sortInquiriesDesc inqs).take 25) ∧
    (∀ p ∈ (sortInquiriesDesc inqs).take 25, p ∈ inqs) := by
  refine ⟨by decide, by decide, ?_, List.length_take_le _ _,
    List.Pairwise.sublist (List.take_sublist _ _) (sortInquiriesDesc_pairwise inqs),
    ?_, ?_, List.length_take_le _ _,
    List.Pairwise.sublist (List.take_sublist _ _) (sortInquiriesDesc_pairwise inqs),
    ?_⟩
  · rw [listInquiries, show computedLimit (some "500") = JSNum.int 100 from by decide]
    norm_num
    rfl
  · intro p hp
    exact (List.mem_insertionSort inqDescOrder).mp (List.mem_of_mem_take hp)
  · rw [listInquiries, show computedLimit none = JSNum.int 25 from by decide]
    norm_num
    rfl
  · intro p hp
    exact (List.mem_insertionSort inqDescOrder).mp (List.mem_of_mem_take hp)

theorem inquiries_list_clamped_witness :
    listInquiries (some "500")
        [("a", [("createdAt", JSVal.str "2020-01-01")]),
         ("b", [("createdAt", JSVal.str "2021-01-01")])] =
      some ⟨200, .items [("b", [("createdAt", JSVal.str "2021-01-01")]),
                         ("a", [("createdAt", JSVal.str "2020-01-01")])]⟩ ∧
    ("b", ([("createdAt", JSVal.str "2021-01-01")] : Doc)) ∈
      [("a", ([("createdAt", JSVal.str "2020-01-01")] : Doc)),
       ("b", [("createdAt", JSVal.str "2021-01-01")])] := by
  obtain ⟨_, _, h3, _, _, h6, _, _, _, _⟩ :=
    inquiries_list_clamped
      [("a", [("createdAt", JSVal.str "2020-01-01")]),
       ("b", [("createdAt", JSVal.str "2021-01-01")])]
  refine ⟨?_, h6 _ (by decide)⟩
  rw [h3]
  decide

/-- C2 fails on the code: a successful profile update whose body omits
`bio` overwrites the stored `bio` with the empty string instead of keeping
its prior value — the handler always writes all six fixed fields, so the
`{merge: true}` write is not field-preserving on them. -/
theorem profile_merge_counterexample :
    (putProfile [("name", JSVal.str "A")] "2024-05-05T00:00:00Z"
        (some [("name", JSVal.str "A"), ("bio", JSVal.str "old bio")])).1.status
      = 200 ∧
    ((putProfile [("name", JSVal.str "A")] "2024-05-05T00:00:00Z"
        (some [("name", JSVal.str "A"), ("bio", JSVal.str "old bio")])).2.bind
      (fun d => d.lookup "bio")) = some (JSVal.str "") ∧
    some (JSVal.str "") ≠ some (JSVal.str "old bio") := by
  refine ⟨by decide, by decide, by decide⟩

/-- C2 (amended): every successful profile update writes all six fixed
fields — an omitted string field is overwritten with the empty string and
the `bio`/`photoUrl` values always equal the trimmed request input — while
stored fields outside the fixed payload keys keep their prior values, and
`updatedAt` is stamped on every write. -/
theorem profile_update_amended (body : Doc) (nowIso : String) (stored : Doc)
    (hname : strOrEmptyTrim (body.get "name") ≠ "") :
    ∃ d : Doc,
      (putProfile body nowIso (some stored)).2 = some d ∧
      (putProfile body nowIso (some stored)).1 = ⟨200, .okTrue⟩ ∧
      d.lookup "updatedAt" = some (.str nowIso) ∧
      d.lookup "bio" = some (.str (strOrEmptyTrim (body.get "bio"))) ∧
      d.lookup "photoUrl" = some (.str (strOrEmptyTrim (body.get "photoUrl"))) ∧
      (∀ k, k ∉ ["name", "bio", "place", "phone", "photoUrl", "age", "updatedAt"] →
        d.lookup k = stored.lookup k) := by
  refine ⟨Doc.setMerge stored (putProfilePayload body nowIso), ?_, ?_, ?_, ?_, ?_, ?_⟩
  · simp [putProfile, hname]
  · simp [putProfile, hname]
  · rw [Doc.lookup_setMerge]
    simp [putProfilePayload, Doc.lookup]
  · rw [Doc.lookup_setMerge]
    simp [putProfilePayload, Doc.lookup]
  · rw [Doc.lookup_setMerge]
    simp [putProfilePayload, Doc.lookup]
  · intro k hk
    simp only [List.mem_cons, List.not_mem_nil, or_false, not_or] at hk
    obtain ⟨h1, h2, h3, h4, h5, h6, h7⟩ := hk
    rw [Doc.lookup_setMerge]
    have hnone : (putProfilePayload body nowIso).lookup k = none := by
      simp [putProfilePayload, Doc.lookup, List.find?,
        Ne.symm h1, Ne.symm h2, Ne.symm h3, Ne.symm h4, Ne.symm h5,
        Ne.symm h6, Ne.symm h7]
    rw [hnone]
    rfl

theorem profile_update_amended_witness :
    ∃ d : Doc,
      (putProfile [("name", JSVal.str "A")] "2024-05-05T00:00:00Z"
          (some [("name", JSVal.str "A"), ("bio", JSVal.str "old bio"),
                 ("extra", JSVal.str "kept")])).2 = some d ∧
      (putProfile [("name", JSVal.str "A")] "2024-05-05T00:00:00Z"
          (some [("name", JSVal.str "A"), ("bio", JSVal.str "old bio"),
                 ("extra", JSVal.str "kept")])).1 = ⟨200, .okTrue⟩ ∧
      d.lookup "updatedAt" = some (.str "2024-05-05T00:00:00Z") ∧
      d.lookup "bio" = some (.str (strOrEmptyTrim
        (Doc.get [("name", JSVal.str "A")] "bio"))) ∧
      d.lookup "photoUrl" = some (.str (strOrEmptyTrim
        (Doc.get [("name", JSVal.str "A")] "photoUrl"))) ∧
      (∀ k, k ∉ ["name", "bio", "place", "phone", "photoUrl", "age", "updatedAt"] →
        d.lookup k = Doc.lookup [("name", JSVal.str "A"),
          ("bio", JSVal.str "old bio"), ("extra", JSVal.str "kept")] k) :=
  profile_update_amended [("name", JSVal.str "A")] "2024-05-05T00:00:00Z"
    [("name", JSVal.str "A"), ("bio", JSVal.str "old bio"),
     ("extra", JSVal.str "kept")] (by decide)

/-- C3 fails on the code for the token-verification half: with the signing
secret unconfigured, a bearer-token request to an admin endpoint is
answered 401 `{error: "Invalid token"}` — the `requireEnv` throw lands in
the middleware's catch-all — not a 500 configuration fault. -/
theorem config_error_counterexample :
    runAdminEndpoint .getProfile ⟨none, some "admin", some "pw"⟩ 0
        "2024-01-01T00:00:00Z"
        ⟨.bearer ⟨⟨"admin", "admin", 0, 604800⟩, "sig"⟩, [], none, none⟩
        ⟨none, none, []⟩ =
      some (⟨401, .err "Invalid token"⟩, ⟨none, none, []⟩) ∧
    (401 : Nat) ≠ 500 := by
  refine ⟨by decide, by decide⟩

/-- C3 (amended): login with the admin identity or password unconfigured
answers 500 `Admin env not configured`, distinct from the 401
authentication contract, and minting a token with the signing secret
unconfigured throws; but during token verification a missing signing
secret is caught by the middleware's catch-all and reported as 401
`Invalid token`, indistinguishable from an authentication failure. -/
theorem config_error_amended (env : Env) (nowSec n2 : Nat) (body : Doc)
    (hdr : AuthHeader) (t : Token) (role username : String)
    (hadmin : env.adminUsernameVal = "" ∨ env.adminPasswordHash = none)
    (hsec : requireEnv env.jwtSecret = none)
    (htok : extractToken hdr = some t) :
    login env nowSec body = .resp ⟨500, .err "Admin env not configured"⟩ ∧
    authMiddleware env n2 hdr = .error ⟨401, .err "Invalid token"⟩ ∧
    signToken env role username nowSec = none := by
  refine ⟨?_, ?_, ?_⟩
  · rcases hadmin with h | h <;> simp [login, h]
  · rw [authMiddleware, htok, hsec]
  · rw [signToken, hsec]

theorem config_error_amended_witness :
    login ⟨none, some "", some "pw"⟩ 3 [("username", JSVal.str "a")] =
      .resp ⟨500, .err "Admin env not configured"⟩ ∧
    authMiddleware ⟨none, some "", some "pw"⟩ 7
        (.bearer ⟨⟨"admin", "a", 0, 604800⟩, "s"⟩) =
      .error ⟨401, .err "Invalid token"⟩ ∧
    signToken ⟨none, some "", some "pw"⟩ "admin" "a" 3 = none :=
  config_error_amended ⟨none, some "", some "pw"⟩ 3 7 [("username", JSVal.str "a")]
    (.bearer ⟨⟨"admin", "a", 0, 604800⟩, "s"⟩) ⟨⟨"admin", "a", 0, 604800⟩, "s"⟩
    "admin" "a" (by decide) (by decide) (by decide)

/-- C1: a token issued by a successful login carries role `"admin"` and a
seven-day expiry, and is accepted by every admin endpoint while unexpired
(the request reaches the handler); a request with no bearer token is
answered 401 `Missing token` by every admin endpoint; a token with a
mutated signature, or one past its validity window, is answered 401
`Invalid token` by every admin endpoint; no handler itself ever answers
401, and every auth rejection leaves the store untouched. -/
theorem admin_auth_contract (e : AdminEndpoint) (env : Env) (secret : String)
    (t0 nowSec : Nat) (nowIso : String) (body : Doc) (tok : Token)
    (req : AdminRequest) (st : Store)
    (hsec : requireEnv env.jwtSecret = some secret)
    (hlogin : (login env t0 body).tokenOf = some tok) :
    tok.claims.role = "admin" ∧
    tok.claims.exp = t0 + sevenDays ∧
    (nowSec < t0 + sevenDays → req.hdr = .bearer tok →
      runAdminEndpoint e env nowSec nowIso req st = adminHandler e nowIso req st) ∧
    (∀ r st2, adminHandler e nowIso req st = some (r, st2) → r.status ≠ 401) ∧
    (extractToken req.hdr = none →
      runAdminEndpoint e env nowSec nowIso req st =
        some (⟨401, .err "Missing token"⟩, st)) ∧
    (∀ s, s ≠ tok.sig → req.hdr = .bearer ⟨tok.claims, s⟩ →
      runAdminEndpoint e env nowSec nowIso req st =
        some (⟨401, .err "Invalid token"⟩, st)) ∧
    (t0 + sevenDays ≤ nowSec → req.hdr = .bearer tok →
      runAdminEndpoint e env nowSec nowIso req st =
        some (⟨401, .err "Invalid token"⟩, st)) := by
  obtain ⟨hrole, hiat, hexp, hsig⟩ := login_token_shape env secret t0 body tok hsec hlogin
  refine ⟨hrole, hexp, ?_, ?_, ?_, ?_, ?_⟩
  · intro hlt hhdr
    rw [runAdminEndpoint_eq, hhdr,
      authMiddleware_bearer env secret nowSec tok hsec,
      if_pos ⟨hsig, hexp ▸ hlt⟩]
  · intro r st2 h
    cases e with
    | getProfile =>
      simp only [adminHandler, Option.some.injEq, Prod.mk.injEq] at h
      rw [← h.1]
      simp
    | putProfile =>
      simp only [adminHandler, putProfile] at h
      split at h <;>
        · simp only [Option.some.injEq, Prod.mk.injEq] at h
          rw [← h.1]
          simp
    | getSchedule =>
      simp only [adminHandler, Option.some.injEq, Prod.mk.injEq] at h
      rw [← h.1]
      simp
    | putSchedule =>
      simp only [adminHandler, putSchedule, Option.some.injEq, Prod.mk.injEq] at h
      rw [← h.1]
      simp
    | getInquiries =>
      simp only [adminHandler, listInquiries] at h
      rcases hcl : computedLimit req.limitParam with _ | n
      · rw [hcl] at h
        simp at h
      · rw [hcl] at h
        split at h
        · simp at h
        · simp at h
          obtain ⟨a, ⟨hn0, ha⟩, har, hst⟩ := h
          rw [← har, ← ha]
          simp
  · intro hmiss
    rw [runAdminEndpoint_eq, authMiddleware, hmiss]
  · intro s hne hhdr
    rw [runAdminEndpoint_eq, hhdr,
      authMiddleware_bearer env secret nowSec _ hsec, if_neg]
    rintro ⟨h1, _⟩
    exact hne (h1.trans hsig.symm)
  · intro hge hhdr
    rw [runAdminEndpoint_eq, hhdr,
      authMiddleware_bearer env secret nowSec tok hsec, if_neg]
    rintro ⟨_, h2⟩
    rw [hexp] at h2
    omega

theorem admin_auth_contract_witness :
    runAdminEndpoint .getProfile ⟨some "s3cret", some "admin", some "pw"⟩ 1000
        "T0" ⟨.bearer ⟨⟨"admin", "admin", 0, 604800⟩, "s3cret.admin.admin.0.604800"⟩,
          [], none, none⟩ ⟨none, none, []⟩ =
      adminHandler .getProfile "T0"
        ⟨.bearer ⟨⟨"admin", "admin", 0, 604800⟩, "s3cret.admin.admin.0.604800"⟩,
          [], none, none⟩ ⟨none, none, []⟩ ∧
    runAdminEndpoint .getSchedule ⟨some "s3cret", some "admin", some "pw"⟩ 1000
        "T0" ⟨.missing, [], none, none⟩ ⟨none, none, []⟩ =
      some (⟨401, .err "Missing token"⟩, ⟨none, none, []⟩) ∧
    runAdminEndpoint .putProfile ⟨some "s3cret", some "admin", some "pw"⟩ 1000
        "T0" ⟨.bearer ⟨⟨"admin", "admin", 0, 604800⟩, "mutated"⟩, [], none, none⟩
        ⟨none, none, []⟩ =
      some (⟨401, .err "Invalid token"⟩, ⟨none, none, []⟩) ∧
    runAdminEndpoint .putSchedule ⟨some "s3cret", some "admin", some "pw"⟩ 604800
        "T0" ⟨.bearer ⟨⟨"admin", "admin", 0, 604800⟩, "s3cret.admin.admin.0.604800"⟩,
          [], none, none⟩ ⟨none, none, []⟩ =
      some (⟨401, .err "Invalid token"⟩, ⟨none, none, []⟩) :=
  ⟨(admin_auth_contract .getProfile ⟨some "s3cret", some "admin", some "pw"⟩
      "s3cret" 0 1000 "T0" [("username", JSVal.str "admin"), ("password", JSVal.str "pw")]
      ⟨⟨"admin", "admin", 0, 604800⟩, "s3cret.admin.admin.0.604800"⟩
      ⟨.bearer ⟨⟨"admin", "admin", 0, 604800⟩, "s3cret.admin.admin.0.604800"⟩,
        [], none, none⟩ ⟨none, none, []⟩ (by decide) (by decide)).2.2.1
    (by decide) rfl,
   (admin_auth_contract .getSchedule ⟨some "s3cret", some "admin", some "pw"⟩
      "s3cret" 0 1000 "T0" [("username", JSVal.str "admin"), ("password", JSVal.str "pw")]
      ⟨⟨"admin", "admin", 0, 604800⟩, "s3cret.admin.admin.0.604800"⟩
      ⟨.missing, [], none, none⟩ ⟨none, none, []⟩ (by decide)
      (by decide)).2.2.2.2.1 rfl,
   (admin_auth_contract .putProfile ⟨some "s3cret", some "admin", some "pw"⟩
      "s3cret" 0 1000 "T0" [("username", JSVal.str "admin"), ("password", JSVal.str "pw")]
      ⟨⟨"admin", "admin", 0, 604800⟩, "s3cret.admin.admin.0.604800"⟩
      ⟨.bearer ⟨⟨"admin", "admin", 0, 604800⟩, "mutated"⟩, [], none, none⟩
      ⟨none, none, []⟩ (by decide) (by decide)).2.2.2.2.2.1 "mutated"
    (by decide) rfl,
   (admin_auth_contract .putSchedule ⟨some "s3cret", some "admin", some "pw"⟩
      "s3cret" 0 604800 "T0" [("username", JSVal.str "admin"), ("password", JSVal.str "pw")]
      ⟨⟨"admin", "admin", 0, 604800⟩, "s3cret.admin.admin.0.604800"⟩
      ⟨.bearer ⟨⟨"admin", "admin", 0, 604800⟩, "s3cret.admin.admin.0.604800"⟩,
        [], none, none⟩ ⟨none, none, []⟩ (by decide) (by decide)).2.2.2.2.2.2
    (by decide) rfl⟩

end Server
